import Mathlib

/-!
Shallow embedding of the snow-day calculator engine (mainapp.py,
class ImprovedSnowDayCalculator) and proofs about its scoring and
probability-mapping rules.

Modelling conventions:
* Python floats are modelled as rationals (all constants in the source are
  decimal literals, and every operation used is exact on rationals except
  `math.pow(v, 0.16)` inside the wind-chill formula, which is abstracted as
  an explicit function parameter `vpow`).
* A `datetime` is modelled as `DT` (proleptic-Gregorian ordinal date plus
  hour/minute/second); `datetime.fromisoformat` of a period's `startTime`
  is modelled by an `Option DT` field, `none` standing for an unparseable
  timestamp (in the source, `fromisoformat` raises `ValueError` there).
* Code paths that can raise are embedded in `Except Unit`; `.error ()`
  models an uncaught exception propagating out of the function.
* Optional numeric fields are `Option ℚ`; Python truthiness of a parsed
  number (`if val:`) is modelled by an explicit `= 0` test.
-/

namespace SnowDay

/-- A parsed timestamp: ordinal calendar date (Python date.toordinal,
ordinal 1 = Monday, 0001-01-01) plus time of day. -/
structure DT where
  date : Int
  hour : Nat
  minute : Nat := 0
  second : Nat := 0
deriving DecidableEq, Repr

/-- Total seconds, used for datetime comparison and subtraction. -/
def DT.toSec (t : DT) : Int :=
  t.date * 86400 + (t.hour : Int) * 3600 + (t.minute : Int) * 60 + (t.second : Int)

/-- Python date.weekday(): Monday = 0 .. Sunday = 6 (ordinal 1 is a Monday). -/
def weekdayNum (d : Int) : Int := (d - 1) % 7

/-- One hourly forecast period, mirroring the NWS period dict fields the
source reads.  `startTime = none` models an unparseable timestamp;
`quantitativePrecipitation` is the raw value in millimetres; `windSpeed`
and `visibility` hold the numeric value the regex extractor would return
(`none` = absent or unparseable). -/
structure Period where
  startTime : Option DT := none
  shortForecast : String := ""
  detailedForecast : String := ""
  icon : String := ""
  quantitativePrecipitation : Option ℚ := none
  precipitationProbability : Option ℚ := none
  temperature : Option ℚ := none
  temperatureUnit : String := "F"
  windSpeed : Option ℚ := none
  visibility : Option ℚ := none
deriving DecidableEq, Repr

/-- An active alert: event name plus effective/expiry timestamps
(`none` models a missing field or a timestamp whose parse raises
`ValueError`, which the source catches and skips). -/
structure Alert where
  event : String
  effective : Option DT := none
  expires : Option DT := none
deriving DecidableEq, Repr

/-- A district profile (DISTRICT_PROFILES entries). -/
structure DistrictProfile where
  accumulation_threshold : ℚ
  timing_weight : ℚ
  name : String
deriving DecidableEq, Repr

def conservativeProfile : DistrictProfile :=
  { accumulation_threshold := 3.0, timing_weight := 2.5,
    name := "Urban/Conservative (closes early)" }

def averageProfile : DistrictProfile :=
  { accumulation_threshold := 4.5, timing_weight := 2.2,
    name := "Average District" }

def toughProfile : DistrictProfile :=
  { accumulation_threshold := 6.0, timing_weight := 1.8,
    name := "Rural/Tough (tolerates more snow)" }

def northvilleProfile : DistrictProfile :=
  { accumulation_threshold := 3.5, timing_weight := 2.3,
    name := "Northville Public Schools (Actual)" }

/-- Python str.lower() on one character (ASCII, which covers all NWS
forecast text and the keyword tables). -/
def lowerChar (c : Char) : Char :=
  if 65 ≤ c.toNat ∧ c.toNat ≤ 90 then Char.ofNat (c.toNat + 32) else c

/-- Python str.lower(). -/
def strLower (s : String) : String := ⟨s.data.map lowerChar⟩

/-- List prefix test (Char lists). -/
def isPrefixOfList : List Char → List Char → Bool
  | [], _ => true
  | _ :: _, [] => false
  | a :: as, b :: bs => a = b && isPrefixOfList as bs

/-- Substring containment, modelling the Python `in` operator on strings. -/
def strContains (s pat : String) : Bool :=
  s.data.tails.any fun suf => isPrefixOfList pat.data suf

/-- Python round(x, nd): round half to even at nd decimal digits
(modelled exactly on rationals). -/
def pythonRound (nd : Nat) (q : ℚ) : ℚ :=
  let s : ℚ := (10 : ℚ) ^ nd
  let x := q * s
  let n : Int := ⌊x⌋
  let fr := x - (n : ℚ)
  let r : Int :=
    if fr < 1/2 then n
    else if fr > 1/2 then n + 1
    else if n % 2 = 0 then n else n + 1
  (r : ℚ) / s

/-- Python int() truncation toward zero, on an exact rational. -/
def pyTrunc (q : ℚ) : Int := if 0 ≤ q then ⌊q⌋ else ⌈q⌉

/-- Python min() over a nonempty list (the source never calls it on an
empty list; the [] case is arbitrary). -/
def pyMin (l : List ℚ) : ℚ :=
  match l with
  | [] => 0
  | x :: xs => xs.foldl min x

-- -------------------------
-- Utility functions (field extractors)
-- -------------------------

/-- _extract_wind_speed: the numeric value parsed out of the windSpeed
string; a parsed value of 0 is falsy in Python, so it yields None. -/
def extractWindSpeed (p : Period) : Option ℚ :=
  match p.windSpeed with
  | none => none
  | some v => if v = 0 then none else some v

/-- _extract_visibility, with the same truthiness handling. -/
def extractVisibility (p : Period) : Option ℚ :=
  match p.visibility with
  | none => none
  | some v => if v = 0 then none else some v

/-- _get_temperature_fahrenheit: convert a Celsius-coded temperature. -/
def getTemperatureFahrenheit (p : Period) : Option ℚ :=
  match p.temperature with
  | none => none
  | some t =>
    if p.temperatureUnit = "C" ∨ p.temperatureUnit = "wmoUnit:degC" then
      some (t * 9 / 5 + 32)
    else some t

/-- _extract_precipitation_data: (QPF in inches, precipitation
probability).  The raw quantitativePrecipitation value is in mm. -/
def extractPrecipitationData (p : Period) : Option ℚ × Option ℚ :=
  (p.quantitativePrecipitation.map (fun v => v / 25.4), p.precipitationProbability)

def snowKeywords : List String :=
  ["snow", "blizzard", "sleet", "freezing rain", "ice", "wintry"]

/-- _is_snow_period: keyword match on lowercased combined forecast text. -/
def isSnowPeriod (p : Period) : Bool :=
  let combined :=
    strLower p.shortForecast ++ " " ++ strLower p.detailedForecast ++ " " ++ strLower p.icon
  snowKeywords.any fun kw => strContains combined kw

/-- _qpf_to_snow_depth: temperature-bracketed snow-to-liquid conversion. -/
def qpfToSnowDepth (qpfInches periodTemp : ℚ) : ℚ :=
  if qpfInches ≤ 0 then 0
  else
    let r : ℚ :=
      if periodTemp > 30 then 8.0
      else if periodTemp > 25 then 9.5
      else if periodTemp > 20 then 10.0
      else if periodTemp > 15 then 12.0
      else 15.0
    qpfInches * r

/-- _extract_wind_chill.  `vpow` abstracts `math.pow(wind_speed, 0.16)`
(the only non-rational operation in the source). -/
def extractWindChill (vpow : ℚ → ℚ) (p : Period) : Option ℚ :=
  match getTemperatureFahrenheit p, extractWindSpeed p with
  | some temp, some wind =>
    if temp > 50 ∨ wind ≤ 3 then some temp
    else some (35.74 + 0.6215 * temp - 35.75 * vpow wind + 0.4275 * temp * vpow wind)
  | _, _ => none

-- -------------------------
-- Probability mapping and confidence decay
-- -------------------------

/-- _severity_to_probability: alert labels return fixed pairs; otherwise
the score is bucketed; the score-branch probability is clamped by
min(99, p). -/
def severityToProbability (severityScore : ℚ) (alertType : Option String) : Int × ℚ :=
  if alertType = some "Blizzard Warning" then (85, 0.95)
  else if alertType = some "Ice Storm Warning" then (80, 0.93)
  else if alertType = some "Winter Storm Warning" then (70, 0.88)
  else if alertType = some "Winter Weather Advisory" then (45, 0.75)
  else
    let pc : Int × ℚ :=
      if severityScore < 10 then (2, 0.95)
      else if severityScore < 20 then (8, 0.90)
      else if severityScore < 30 then (15, 0.85)
      else if severityScore < 40 then (28, 0.82)
      else if severityScore < 50 then (42, 0.80)
      else if severityScore < 60 then (55, 0.80)
      else if severityScore < 70 then (68, 0.82)
      else if severityScore < 80 then (76, 0.85)
      else if severityScore < 90 then (82, 0.87)
      else (88, 0.90)
    (min 99 pc.1, pc.2)

/-- The forecast-age confidence adjustment applied in
calculate_next_weekday_probabilities (an if/elif chain followed by the
0.5 floor). -/
def applyConfidenceDecay (forecastAge : Int) (confidence : ℚ) : ℚ :=
  let c :=
    if forecastAge > 72 then confidence * 0.80
    else if forecastAge > 48 then confidence * 0.90
    else confidence
  max 0.5 c

/-- The likelihood label bucketing in calculate_next_weekday_probabilities. -/
def likelihoodLabel (probability : Int) : String :=
  if probability < 15 then "VERY UNLIKELY"
  else if probability < 35 then "UNLIKELY"
  else if probability < 55 then "POSSIBLE"
  else if probability < 75 then "LIKELY"
  else "VERY LIKELY"

-- -------------------------
-- Analysis functions
-- -------------------------

/-- Auxiliary detail dict built by analyze_early_morning_timing. -/
structure TimingDetails where
  critical_window_snow_depth : ℚ
  peak_probability : ℚ
  continuous_hours : Nat
deriving DecidableEq, Repr

/-- The main loop of analyze_early_morning_timing, over
(score, critical_window_snow, peak_probability).  The timestamp of every
period is parsed before any other check, so one unparseable startTime
aborts the whole analysis. -/
def earlyMorningLoop : List Period → ℚ × ℚ × ℚ → Except Unit (ℚ × ℚ × ℚ)
  | [], st => .ok st
  | p :: rest, (score, crit, peak) =>
    match p.startTime with
    | none => .error ()
    | some dt =>
      if ¬ isSnowPeriod p then earlyMorningLoop rest (score, crit, peak)
      else
        match (extractPrecipitationData p).1 with
        | none => earlyMorningLoop rest (score, crit, peak)
        | some qpfAmount =>
          if qpfAmount ≤ 0 then earlyMorningLoop rest (score, crit, peak)
          else
            let periodTemp := p.temperature.getD 32
            let snowDepth := qpfToSnowDepth qpfAmount periodTemp
            if 5 ≤ dt.hour ∧ dt.hour ≤ 9 then
              let score :=
                if snowDepth ≥ 0.4 then score + 35
                else if snowDepth ≥ 0.15 then score + 20
                else score + 8
              let peak :=
                match (extractPrecipitationData p).2 with
                | some pr => if pr ≠ 0 ∧ pr > peak then pr else peak
                | none => peak
              earlyMorningLoop rest (score, crit + snowDepth, peak)
            else if 3 ≤ dt.hour ∧ dt.hour < 5 then
              let score :=
                if snowDepth ≥ 0.3 then score + 18
                else if snowDepth > 0 then score + 10
                else score
              earlyMorningLoop rest (score, crit, peak)
            else earlyMorningLoop rest (score, crit, peak)

/-- _count_continuous_snow_hours: loop over (consecutive, max_consecutive). -/
def countSnowHoursLoop (startHour endHour : Nat) :
    List Period → Nat → Nat → Except Unit Nat
  | [], _, maxc => .ok maxc
  | p :: rest, consec, maxc =>
    match p.startTime with
    | none => .error ()
    | some dt =>
      if startHour ≤ dt.hour ∧ dt.hour ≤ endHour ∧ isSnowPeriod p then
        match (extractPrecipitationData p).1 with
        | some q =>
          if q > 0 then
            countSnowHoursLoop startHour endHour rest (consec + 1) (max maxc (consec + 1))
          else countSnowHoursLoop startHour endHour rest 0 maxc
        | none => countSnowHoursLoop startHour endHour rest 0 maxc
      else countSnowHoursLoop startHour endHour rest 0 maxc

def countContinuousSnowHours (dayHours : List Period) (startHour endHour : Nat) :
    Except Unit Nat :=
  countSnowHoursLoop startHour endHour dayHours 0 0

/-- analyze_early_morning_timing: critical 5am-9am window scoring plus a
continuity bonus when 3 or more consecutive snow hours fall in the
window, all scaled by the profile's timing weight. -/
def analyzeEarlyMorningTiming (prof : DistrictProfile) (dayHours : List Period) :
    Except Unit (ℚ × TimingDetails) := do
  let (score, criticalWindowSnow, peakProb) ← earlyMorningLoop dayHours (0, 0, 0)
  let continuousHours ← countContinuousSnowHours dayHours 5 9
  let score := if continuousHours ≥ 3 then score + 15 else score
  .ok (score * prof.timing_weight,
    { critical_window_snow_depth := pythonRound 1 criticalWindowSnow,
      peak_probability := peakProb,
      continuous_hours := continuousHours })

/-- analyze_total_accumulation: (score, total snow inches).  This
analyzer never parses timestamps, so it is total. -/
def analyzeTotalAccumulation (prof : DistrictProfile) (dayHours : List Period) :
    ℚ × ℚ :=
  let totalSnow := dayHours.foldl (fun acc p =>
    if ¬ isSnowPeriod p then acc
    else
      match (extractPrecipitationData p).1 with
      | some q =>
        if q > 0 then acc + qpfToSnowDepth q (p.temperature.getD 32) else acc
      | none => acc) 0
  let score : ℚ :=
    if totalSnow ≥ 6.0 then 45
    else if totalSnow ≥ 5.0 then 40
    else if totalSnow ≥ 4.0 then 35
    else if totalSnow ≥ prof.accumulation_threshold then 25
    else if totalSnow ≥ 2.5 then 15
    else if totalSnow ≥ 1.0 then 5
    else if totalSnow ≥ 0.5 then 2
    else 0
  (score, totalSnow)

/-- First loop of analyze_refreeze_risk: last hour with measurable snow
(parses every period's timestamp). -/
def lastSnowHourLoop : List Period → Option Nat → Except Unit (Option Nat)
  | [], acc => .ok acc
  | p :: rest, acc =>
    match p.startTime with
    | none => .error ()
    | some dt =>
      if isSnowPeriod p then
        match (extractPrecipitationData p).1 with
        | some q =>
          if q > 0 then lastSnowHourLoop rest (some dt.hour)
          else lastSnowHourLoop rest acc
        | none => lastSnowHourLoop rest acc
      else lastSnowHourLoop rest acc

/-- Second loop of analyze_refreeze_risk: temperatures in the 4am-10am
commute window. -/
def tempsAfterLoop : List Period → List ℚ → Except Unit (List ℚ)
  | [], acc => .ok acc
  | p :: rest, acc =>
    match p.startTime with
    | none => .error ()
    | some dt =>
      if 4 ≤ dt.hour ∧ dt.hour ≤ 10 then
        tempsAfterLoop rest (acc ++ [p.temperature.getD 32])
      else tempsAfterLoop rest acc

/-- analyze_refreeze_risk: (score, refreeze flag). -/
def analyzeRefreezeRisk (dayHours : List Period) : Except Unit (ℚ × Bool) := do
  let lastSnowHour ← lastSnowHourLoop dayHours none
  match lastSnowHour with
  | none => .ok (0, false)
  | some lh =>
    if lh ≤ 4 then do
      let tempsAfter ← tempsAfterLoop dayHours []
      if tempsAfter = [] then .ok (0, false)
      else
        let minTemp := pyMin tempsAfter
        if minTemp < 20 then .ok (22, true)
        else if minTemp < 28 then .ok (12, true)
        else .ok (0, false)
    else .ok (0, false)

/-- The gathering loop of analyze_road_conditions: daytime temperatures
and visibilities. -/
def roadGatherLoop : List Period → List ℚ × List ℚ → Except Unit (List ℚ × List ℚ)
  | [], st => .ok st
  | p :: rest, (temps, viss) =>
    match p.startTime with
    | none => .error ()
    | some dt =>
      if 6 ≤ dt.hour ∧ dt.hour ≤ 18 then
        let temps := temps ++ [p.temperature.getD 32]
        match extractVisibility p with
        | some v => roadGatherLoop rest (temps, viss ++ [v])
        | none => roadGatherLoop rest (temps, viss)
      else roadGatherLoop rest (temps, viss)

/-- analyze_road_conditions. -/
def analyzeRoadConditions (dayHours : List Period) : Except Unit ℚ := do
  let (temps, visibilities) ← roadGatherLoop dayHours ([], [])
  if temps = [] then .ok 0
  else
    let avgTemp := temps.sum / (temps.length : ℚ)
    let minTemp := pyMin temps
    let s1 : ℚ :=
      if avgTemp < 15 then 16
      else if avgTemp < 25 then 10
      else if avgTemp < 32 then 5
      else 0
    let s2 : ℚ := if minTemp < 32 then 6 else 0
    let hasSnow := dayHours.any isSnowPeriod
    let s3 : ℚ :=
      if hasSnow ∧ visibilities ≠ [] then
        let minVis := pyMin visibilities
        if minVis < 0.25 then 15
        else if minVis < 0.5 then 10
        else if minVis < 1.0 then 6
        else 0
      else 0
    .ok (s1 + s2 + s3)

/-- First loop of analyze_drifting_risk: (has_recent_snow,
last_snow_hour).  The timestamp is only parsed inside the snow branch,
exactly as in the source. -/
def driftingSnowLoop : List Period → Bool × Option Nat → Except Unit (Bool × Option Nat)
  | [], st => .ok st
  | p :: rest, st =>
    if isSnowPeriod p then
      match (extractPrecipitationData p).1 with
      | some q =>
        if q > 0 then
          match p.startTime with
          | none => .error ()
          | some dt => driftingSnowLoop rest (true, some dt.hour)
        else driftingSnowLoop rest st
      | none => driftingSnowLoop rest st
    else driftingSnowLoop rest st

/-- Second loop of analyze_drifting_risk: wind during or within 6 hours
after snow.  Note the Python truthiness of last_snow_hour: a last snow
hour of 0 (midnight) is falsy, so the after-snow branch is skipped. -/
def driftingWindLoop (lastSnowHour : Option Nat) : List Period → ℚ → Except Unit ℚ
  | [], sc => .ok sc
  | p :: rest, sc =>
    match p.startTime with
    | none => .error ()
    | some dt =>
      match extractWindSpeed p with
      | some wind =>
        if wind > 25 then
          if isSnowPeriod p then driftingWindLoop lastSnowHour rest (sc + 12)
          else
            match lastSnowHour with
            | some lh =>
              if lh ≠ 0 ∧ 0 ≤ (dt.hour : Int) - (lh : Int) ∧ (dt.hour : Int) - (lh : Int) ≤ 6 then
                driftingWindLoop lastSnowHour rest (sc + 8)
              else driftingWindLoop lastSnowHour rest sc
            | none => driftingWindLoop lastSnowHour rest sc
        else driftingWindLoop lastSnowHour rest sc
      | none => driftingWindLoop lastSnowHour rest sc

/-- analyze_drifting_risk, capped at 20. -/
def analyzeDriftingRisk (dayHours : List Period) : Except Unit ℚ := do
  let (hasRecentSnow, lastSnowHour) ← driftingSnowLoop dayHours (false, none)
  if ¬ hasRecentSnow then .ok 0
  else do
    let score ← driftingWindLoop lastSnowHour dayHours 0
    .ok (min score 20.0)

/-- analyze_hazardous_precip: freezing rain / ice storm / sleet /
freezing drizzle tiers, capped at 50.  No timestamps are read. -/
def analyzeHazardousPrecip (dayHours : List Period) : ℚ :=
  let score := dayHours.foldl (fun sc p =>
    let combined := strLower p.shortForecast ++ " " ++ strLower p.detailedForecast
    if strContains combined "freezing rain" then sc + 50
    else if strContains combined "ice storm" then sc + 48
    else if strContains combined "sleet" ∨ strContains combined "ice pellets" then sc + 35
    else if strContains combined "freezing drizzle" then sc + 20
    else sc) 0
  min score 50.0

/-- _compute_min_bus_chill: gather wind chills in the 6am-9am bus window. -/
def busChillLoop (vpow : ℚ → ℚ) : List Period → List ℚ → Except Unit (List ℚ)
  | [], acc => .ok acc
  | p :: rest, acc =>
    match p.startTime with
    | none => .error ()
    | some dt =>
      if 6 ≤ dt.hour ∧ dt.hour ≤ 9 then
        match extractWindChill vpow p with
        | some c => busChillLoop vpow rest (acc ++ [c])
        | none => busChillLoop vpow rest acc
      else busChillLoop vpow rest acc

def computeMinBusChill (vpow : ℚ → ℚ) (dayHours : List Period) : Except Unit ℚ := do
  let busHourChills ← busChillLoop vpow dayHours []
  if busHourChills = [] then .ok 32.0 else .ok (pyMin busHourChills)

/-- analyze_extreme_cold_day: zero whenever any snow/ice period is
present; otherwise a descending step function of the minimum bus-hour
wind chill, capped at 40. -/
def analyzeExtremeColdDay (dayHours : List Period) (minBusChill : ℚ) : ℚ :=
  if dayHours.any isSnowPeriod then 0.0
  else
    let score : ℚ :=
      if minBusChill ≤ -25 then 40
      else if minBusChill ≤ -22 then 38
      else if minBusChill ≤ -20 then 32
      else if minBusChill ≤ -18 then 25
      else if minBusChill ≤ -15 then 15
      else 0
    min score 40.0

/-- The windchill danger tiers computed inline in
_calculate_severity_score (lines 656-666). -/
def windchillDangerScore (minBusChill : ℚ) : ℚ :=
  if minBusChill ≤ -25 then 35.0
  else if minBusChill ≤ -20 then 25.0
  else if minBusChill ≤ -15 then 18.0
  else if minBusChill ≤ -10 then 12.0
  else if minBusChill ≤ -5 then 6.0
  else 0.0

/-- Per-alert step of analyze_alerts: keep the highest-priority alert
overlapping the 3am-10am decision window anchored at the first period's
date.  An unparseable first-period timestamp raises ValueError inside
the try, which is caught (the alert is skipped); an empty day list
raises IndexError, which is not caught. -/
def alertStep (dayHours : List Period) (a : Alert) (cur : Option String × ℚ) :
    Except Unit (Option String × ℚ) :=
  match a.effective, a.expires with
  | some eff, some exp =>
    match dayHours with
    | [] => .error ()
    | first :: _ =>
      match first.startTime with
      | none => .ok cur
      | some dayStart =>
        let wStart : DT := { dayStart with hour := 3, minute := 0, second := 0 }
        let wEnd : DT := { dayStart with hour := 10, minute := 0, second := 0 }
        if ¬ (exp.toSec < wStart.toSec ∨ eff.toSec > wEnd.toSec) then
          if strContains a.event "Blizzard Warning" then
            if cur.2 < 50 then .ok (some "Blizzard Warning", 50.0) else .ok cur
          else if strContains a.event "Ice Storm Warning" then
            if cur.2 < 48 then .ok (some "Ice Storm Warning", 48.0) else .ok cur
          else if strContains a.event "Winter Storm Warning" then
            if cur.2 < 40 then .ok (some "Winter Storm Warning", 40.0) else .ok cur
          else if strContains a.event "Winter Weather Advisory" then
            if cur.2 < 20 then .ok (some "Winter Weather Advisory", 20.0) else .ok cur
          else .ok cur
        else .ok cur
  | _, _ => .ok cur

def alertLoop (dayHours : List Period) : List Alert → Option String × ℚ →
    Except Unit (Option String × ℚ)
  | [], cur => .ok cur
  | a :: rest, cur => do
    let cur ← alertStep dayHours a cur
    alertLoop dayHours rest cur

/-- analyze_alerts: (winning alert label, alert score); (none, 0) when no
alerts are active. -/
def analyzeAlerts (alerts : List Alert) (dayHours : List Period) :
    Except Unit (Option String × ℚ) :=
  if alerts = [] then .ok (none, 0.0)
  else alertLoop dayHours alerts (none, 0.0)

-- -------------------------
-- Severity aggregation
-- -------------------------

/-- The severity dict returned by _calculate_severity_score (component
fields rounded to one decimal, min_bus_chill to zero decimals, exactly
as in the source). -/
structure Severity where
  base_score : ℚ
  alert_type : Option String
  early_morning : ℚ
  accumulation : ℚ
  total_snow_inches : ℚ
  refreeze_risk : ℚ
  hazardous_precip : ℚ
  drifting_risk : ℚ
  windchill_danger : ℚ
  extreme_cold : ℚ
  min_bus_chill : ℚ
  road_conditions : ℚ
  timing_details : TimingDetails
  has_refreeze : Bool
deriving DecidableEq, Repr

/-- _calculate_severity_score: run every analyzer and sum the component
scores into base_score.  The alert score is computed but, as in the
source, not added to base_score. -/
def calculateSeverityScore (prof : DistrictProfile) (alerts : List Alert)
    (vpow : ℚ → ℚ) (dayHours : List Period) : Except Unit Severity := do
  let (earlyMorningScore, timingDetails) ← analyzeEarlyMorningTiming prof dayHours
  let (accumulationScore, totalSnow) := analyzeTotalAccumulation prof dayHours
  let (refreezeScore, hasRefreeze) ← analyzeRefreezeRisk dayHours
  let hazardScore := analyzeHazardousPrecip dayHours
  let roadScore ← analyzeRoadConditions dayHours
  let driftingScore ← analyzeDriftingRisk dayHours
  let minBusChill ← computeMinBusChill vpow dayHours
  let extremeColdScore := analyzeExtremeColdDay dayHours minBusChill
  let windchillDanger := windchillDangerScore minBusChill
  let (alertType, _alertScore) ← analyzeAlerts alerts dayHours
  let baseScore :=
    earlyMorningScore + accumulationScore + refreezeScore + hazardScore +
      roadScore + driftingScore + windchillDanger + extremeColdScore
  .ok
    { base_score := baseScore
      alert_type := alertType
      early_morning := pythonRound 1 earlyMorningScore
      accumulation := pythonRound 1 accumulationScore
      total_snow_inches := pythonRound 1 totalSnow
      refreeze_risk := pythonRound 1 refreezeScore
      hazardous_precip := pythonRound 1 hazardScore
      drifting_risk := pythonRound 1 driftingScore
      windchill_danger := pythonRound 1 windchillDanger
      extreme_cold := pythonRound 1 extremeColdScore
      min_bus_chill := pythonRound 0 minBusChill
      road_conditions := pythonRound 1 roadScore
      timing_details := timingDetails
      has_refreeze := hasRefreeze }

-- -------------------------
-- Main calculation (day iteration)
-- -------------------------

/-- _get_forecast_age: hours until the first period starts, floored at 0
(72 for an empty day).  int() truncates toward zero. -/
def getForecastAge (dayHours : List Period) (now : DT) : Except Unit Int :=
  match dayHours with
  | [] => .ok 72
  | p :: _ =>
    match p.startTime with
    | none => .error ()
    | some dt => .ok (max 0 (pyTrunc (((dt.toSec - now.toSec : Int) : ℚ) / 3600)))

/-- Python strftime %A on an ordinal date. -/
def weekdayName (d : Int) : String :=
  if weekdayNum d = 0 then "Monday"
  else if weekdayNum d = 1 then "Tuesday"
  else if weekdayNum d = 2 then "Wednesday"
  else if weekdayNum d = 3 then "Thursday"
  else if weekdayNum d = 4 then "Friday"
  else if weekdayNum d = 5 then "Saturday"
  else "Sunday"

/-- One per-day result record.  The score_breakdown dict of the source is
kept as the full Severity value; the reason/note strings and the
strftime date formatting are presentation only and are not modelled. -/
structure ForecastResult where
  date : Int
  weekday : String
  probability : Int
  likelihood : String
  confidence : ℚ
  breakdown : Severity
deriving DecidableEq, Repr

/-- The grouping pass of calculate_next_weekday_probabilities: parse
every period's startTime and tag the period with its calendar date.  A
single unparseable timestamp raises here. -/
def taggedPeriods : List Period → Except Unit (List (Period × Int))
  | [] => .ok []
  | p :: rest =>
    match p.startTime with
    | none => .error ()
    | some dt => do
      let t ← taggedPeriods rest
      .ok ((p, dt.date) :: t)

/-- sorted(periods_by_date.keys()): the distinct dates in ascending
order. -/
def dayDates (tagged : List (Period × Int)) : List Int :=
  List.insertionSort (· ≤ ·) (tagged.map Prod.snd).dedup

/-- day_hours = periods_by_date[day_date]: the periods of one calendar
date, in forecast order. -/
def dayHoursFor (tagged : List (Period × Int)) (d : Int) : List Period :=
  (tagged.filter fun q => q.2 = d).map Prod.fst

/-- The per-day loop of calculate_next_weekday_probabilities: skip past
dates and weekends, score each remaining day, and stop after 4 scored
days. -/
def dayLoop (prof : DistrictProfile) (alerts : List Alert) (vpow : ℚ → ℚ)
    (now : DT) (today : Int) (tagged : List (Period × Int)) :
    List Int → Nat → Except Unit (List ForecastResult)
  | [], _ => .ok []
  | d :: rest, countedDays =>
    if d ≤ today ∨ 5 ≤ weekdayNum d then
      dayLoop prof alerts vpow now today tagged rest countedDays
    else do
      let severity ← calculateSeverityScore prof alerts vpow (dayHoursFor tagged d)
      let (probability, confidence0) :=
        severityToProbability severity.base_score severity.alert_type
      let forecastAge ← getForecastAge (dayHoursFor tagged d) now
      let confidence := applyConfidenceDecay forecastAge confidence0
      let res : ForecastResult :=
        { date := d
          weekday := weekdayName d
          probability := probability
          likelihood := likelihoodLabel probability
          confidence := pythonRound 2 confidence
          breakdown := severity }
      if 4 ≤ countedDays + 1 then .ok [res]
      else do
        let tail ← dayLoop prof alerts vpow now today tagged rest (countedDays + 1)
        .ok (res :: tail)

/-- The post-fetch state of the calculator: profile, active alerts, the
fetched hourly forecast, and the injected current date/time. -/
structure Calc where
  profile : DistrictProfile
  alerts : List Alert
  hourlyForecast : List Period
  today : Int
  now : DT

/-- calculate_next_weekday_probabilities, starting after the network
fetch: the Bool is the success flag of the returned dict (an empty
forecast yields success=False with an empty probabilities list). -/
def calculateNextWeekdayProbabilities (c : Calc) (vpow : ℚ → ℚ) :
    Except Unit (Bool × List ForecastResult) :=
  if c.hourlyForecast = [] then .ok (false, [])
  else do
    let tagged ← taggedPeriods c.hourlyForecast
    let results ← dayLoop c.profile c.alerts vpow c.now c.today tagged (dayDates tagged) 0
    .ok (true, results)

-- -------------------------
-- Concrete test inputs
-- -------------------------

/-- An abstract wind-power function for test inputs (its value never
matters on the inputs below, where no period has wind above 3 mph). -/
def vp0 : ℚ → ℚ := fun _ => 0

/-- A snow period at a given hour: temperature in °F, QPF value in mm.
12.7 mm is 0.5 inch of liquid equivalent. -/
def snowP (h : Nat) (temp : ℚ) (qpfMm : ℚ) : Period :=
  { startTime := some { date := 2, hour := h }
    shortForecast := "Snow"
    quantitativePrecipitation := some qpfMm
    temperature := some temp }

/-- The §8 commute scenario: one snow period, QPF 0.5 in, 25 °F, 6 AM. -/
def c4day : List Period := [snowP 6 25 12.7]

/-- Exactly two consecutive snow hours in the peak window. -/
def c6day2 : List Period := [snowP 5 25 12.7, snowP 6 25 12.7]

/-- Exactly three consecutive snow hours in the peak window. -/
def c6day3 : List Period := [snowP 5 25 12.7, snowP 6 25 12.7, snowP 7 25 12.7]

/-- A snow-plus-cold period: 0.5 in QPF at -10 °F with light wind at 6 AM,
so both the accumulation factor and the windchill danger factor score. -/
def c2p : Period :=
  { startTime := some { date := 2, hour := 6 }
    shortForecast := "Snow"
    quantitativePrecipitation := some 12.7
    temperature := some (-10)
    windSpeed := some 2 }

def c2day : List Period := [c2p]

/-- The severity breakdown the engine computes for c2day. -/
def c2sev : Severity :=
  { base_score := 156, alert_type := none, early_morning := 77, accumulation := 45,
    total_snow_inches := 15/2, refreeze_risk := 0, hazardous_precip := 0,
    drifting_risk := 0, windchill_danger := 12, extreme_cold := 0,
    min_bus_chill := -10, road_conditions := 22,
    timing_details := { critical_window_snow_depth := 15/2, peak_probability := 0,
                        continuous_hours := 1 },
    has_refreeze := false }

/-- A plain weekday period with no weather (date 2 is a Tuesday). -/
def wPeriod : Period := { startTime := some { date := 2, hour := 6 } }

/-- A calculator whose forecast holds one quiet Tuesday; today is the
Monday before. -/
def wCalc : Calc :=
  { profile := averageProfile, alerts := [], hourlyForecast := [wPeriod],
    today := 1, now := { date := 1, hour := 12 } }

/-- The severity breakdown of the quiet day. -/
def wSev : Severity :=
  { base_score := 0, alert_type := none, early_morning := 0, accumulation := 0,
    total_snow_inches := 0, refreeze_risk := 0, hazardous_precip := 0,
    drifting_risk := 0, windchill_danger := 0, extreme_cold := 0,
    min_bus_chill := 32, road_conditions := 0,
    timing_details := { critical_window_snow_depth := 0, peak_probability := 0,
                        continuous_hours := 0 },
    has_refreeze := false }

/-- The forecast list the pipeline produces for wCalc. -/
def wOut : List ForecastResult :=
  [{ date := 2, weekday := "Tuesday", probability := 2, likelihood := "VERY UNLIKELY",
     confidence := 19/20, breakdown := wSev }]

/-- A period whose startTime does not parse. -/
def badPeriod : Period := { shortForecast := "Snow" }

/-- A forecast in which one period among well-formed ones has an
unparseable timestamp. -/
def c3calc : Calc :=
  { profile := averageProfile, alerts := [],
    hourlyForecast := [wPeriod, badPeriod, snowP 6 25 12.7],
    today := 1, now := { date := 1, hour := 12 } }

/-- A forecast holding a single unparseable period. -/
def c3calc2 : Calc :=
  { profile := averageProfile, alerts := [], hourlyForecast := [badPeriod],
    today := 1, now := { date := 1, hour := 12 } }

-- -------------------------
-- Helper lemmas
-- -------------------------

set_option maxHeartbeats 1000000

lemma bindOk {α β : Type} (a : α) (f : α → Except Unit β) :
    bind (Except.ok a : Except Unit α) f = f a := rfl

lemma bindErr {α β : Type} (e : Unit) (f : α → Except Unit β) :
    bind (Except.error e : Except Unit α) f = Except.error e := rfl

lemma pythonRound_int (nd : Nat) (q : ℚ) (n : Int) (h : q * 10 ^ nd = (n : ℚ)) :
    pythonRound nd q = q := by
  simp only [pythonRound]
  rw [h, Int.floor_intCast]
  norm_num
  exact (div_eq_iff (by positivity)).mpr h.symm

lemma stp_blizzard (s : ℚ) :
    severityToProbability s (some "Blizzard Warning") = (85, 0.95) := rfl

lemma stp_ice (s : ℚ) :
    severityToProbability s (some "Ice Storm Warning") = (80, 0.93) := rfl

lemma stp_wsw (s : ℚ) :
    severityToProbability s (some "Winter Storm Warning") = (70, 0.88) := rfl

lemma stp_advisory (s : ℚ) :
    severityToProbability s (some "Winter Weather Advisory") = (45, 0.75) := rfl

lemma stp_other (s : ℚ) (L : Option String)
    (h1 : L ≠ some "Blizzard Warning") (h2 : L ≠ some "Ice Storm Warning")
    (h3 : L ≠ some "Winter Storm Warning") (h4 : L ≠ some "Winter Weather Advisory") :
    severityToProbability s L = severityToProbability s none := by
  unfold severityToProbability
  rw [if_neg h1, if_neg h2, if_neg h3, if_neg h4]
  rfl

lemma stp_none_fst (s : ℚ) : (severityToProbability s none).1 =
    (if s < 10 then 2 else if s < 20 then 8 else if s < 30 then 15 else if s < 40 then 28
     else if s < 50 then 42 else if s < 60 then 55 else if s < 70 then 68
     else if s < 80 then 76 else if s < 90 then 82 else 88 : Int) := by
  have h0 : (severityToProbability s none).1 =
      min 99 (if s < 10 then ((2 : Int), (0.95 : ℚ)) else if s < 20 then (8, 0.90)
        else if s < 30 then (15, 0.85) else if s < 40 then (28, 0.82)
        else if s < 50 then (42, 0.80) else if s < 60 then (55, 0.80)
        else if s < 70 then (68, 0.82) else if s < 80 then (76, 0.85)
        else if s < 90 then (82, 0.87) else (88, 0.90)).1 := rfl
  rw [h0]
  split_ifs <;> decide

lemma stp_none_snd (s : ℚ) : (severityToProbability s none).2 =
    (if s < 10 then 0.95 else if s < 20 then 0.90 else if s < 30 then 0.85
     else if s < 40 then 0.82 else if s < 50 then 0.80 else if s < 60 then 0.80
     else if s < 70 then 0.82 else if s < 80 then 0.85 else if s < 90 then 0.87
     else 0.90 : ℚ) := by
  have h0 : (severityToProbability s none).2 =
      (if s < 10 then ((2 : Int), (0.95 : ℚ)) else if s < 20 then (8, 0.90)
        else if s < 30 then (15, 0.85) else if s < 40 then (28, 0.82)
        else if s < 50 then (42, 0.80) else if s < 60 then (55, 0.80)
        else if s < 70 then (68, 0.82) else if s < 80 then (76, 0.85)
        else if s < 90 then (82, 0.87) else (88, 0.90)).2 := rfl
  rw [h0]
  split_ifs <;> rfl

lemma stp_ub0 (s : ℚ) (hs : s < 10) : (severityToProbability s none).1 ≤ 2 := by
  rw [stp_none_fst]
  split_ifs <;> first | decide | (exfalso; linarith)

lemma stp_ub1 (s : ℚ) (hs : s < 20) : (severityToProbability s none).1 ≤ 8 := by
  rw [stp_none_fst]
  split_ifs <;> first | decide | (exfalso; linarith)

lemma stp_ub2 (s : ℚ) (hs : s < 30) : (severityToProbability s none).1 ≤ 15 := by
  rw [stp_none_fst]
  split_ifs <;> first | decide | (exfalso; linarith)

lemma stp_ub3 (s : ℚ) (hs : s < 40) : (severityToProbability s none).1 ≤ 28 := by
  rw [stp_none_fst]
  split_ifs <;> first | decide | (exfalso; linarith)

lemma stp_ub4 (s : ℚ) (hs : s < 50) : (severityToProbability s none).1 ≤ 42 := by
  rw [stp_none_fst]
  split_ifs <;> first | decide | (exfalso; linarith)

lemma stp_ub5 (s : ℚ) (hs : s < 60) : (severityToProbability s none).1 ≤ 55 := by
  rw [stp_none_fst]
  split_ifs <;> first | decide | (exfalso; linarith)

lemma stp_ub6 (s : ℚ) (hs : s < 70) : (severityToProbability s none).1 ≤ 68 := by
  rw [stp_none_fst]
  split_ifs <;> first | decide | (exfalso; linarith)

lemma stp_ub7 (s : ℚ) (hs : s < 80) : (severityToProbability s none).1 ≤ 76 := by
  rw [stp_none_fst]
  split_ifs <;> first | decide | (exfalso; linarith)

lemma stp_ub8 (s : ℚ) (hs : s < 90) : (severityToProbability s none).1 ≤ 82 := by
  rw [stp_none_fst]
  split_ifs <;> first | decide | (exfalso; linarith)

lemma stp_ub9 (s : ℚ) : (severityToProbability s none).1 ≤ 88 := by
  rw [stp_none_fst]
  split_ifs <;> decide

lemma stp_lb0 (s : ℚ) : 2 ≤ (severityToProbability s none).1 := by
  rw [stp_none_fst]
  split_ifs <;> decide

lemma stp_lb1 (s : ℚ) (hs : 10 ≤ s) : 8 ≤ (severityToProbability s none).1 := by
  rw [stp_none_fst]
  split_ifs <;> first | decide | (exfalso; linarith)

lemma stp_lb2 (s : ℚ) (hs : 20 ≤ s) : 15 ≤ (severityToProbability s none).1 := by
  rw [stp_none_fst]
  split_ifs <;> first | decide | (exfalso; linarith)

lemma stp_lb3 (s : ℚ) (hs : 30 ≤ s) : 28 ≤ (severityToProbability s none).1 := by
  rw [stp_none_fst]
  split_ifs <;> first | decide | (exfalso; linarith)

lemma stp_lb4 (s : ℚ) (hs : 40 ≤ s) : 42 ≤ (severityToProbability s none).1 := by
  rw [stp_none_fst]
  split_ifs <;> first | decide | (exfalso; linarith)

lemma stp_lb5 (s : ℚ) (hs : 50 ≤ s) : 55 ≤ (severityToProbability s none).1 := by
  rw [stp_none_fst]
  split_ifs <;> first | decide | (exfalso; linarith)

lemma stp_lb6 (s : ℚ) (hs : 60 ≤ s) : 68 ≤ (severityToProbability s none).1 := by
  rw [stp_none_fst]
  split_ifs <;> first | decide | (exfalso; linarith)

lemma stp_lb7 (s : ℚ) (hs : 70 ≤ s) : 76 ≤ (severityToProbability s none).1 := by
  rw [stp_none_fst]
  split_ifs <;> first | decide | (exfalso; linarith)

lemma stp_lb8 (s : ℚ) (hs : 80 ≤ s) : 82 ≤ (severityToProbability s none).1 := by
  rw [stp_none_fst]
  split_ifs <;> first | decide | (exfalso; linarith)

lemma stp_lb9 (s : ℚ) (hs : 90 ≤ s) : 88 ≤ (severityToProbability s none).1 := by
  rw [stp_none_fst]
  split_ifs <;> first | decide | (exfalso; linarith)

lemma stp_none_mono (s1 s2 : ℚ) (h : s1 < s2) :
    (severityToProbability s1 none).1 ≤ (severityToProbability s2 none).1 := by
  rcases lt_or_le s2 10 with hb | hlo0
  · exact le_trans (stp_ub0 s1 (by linarith)) (stp_lb0 s2)
  rcases lt_or_le s2 20 with hb | hlo1
  · exact le_trans (stp_ub1 s1 (by linarith)) (stp_lb1 s2 hlo0)
  rcases lt_or_le s2 30 with hb | hlo2
  · exact le_trans (stp_ub2 s1 (by linarith)) (stp_lb2 s2 hlo1)
  rcases lt_or_le s2 40 with hb | hlo3
  · exact le_trans (stp_ub3 s1 (by linarith)) (stp_lb3 s2 hlo2)
  rcases lt_or_le s2 50 with hb | hlo4
  · exact le_trans (stp_ub4 s1 (by linarith)) (stp_lb4 s2 hlo3)
  rcases lt_or_le s2 60 with hb | hlo5
  · exact le_trans (stp_ub5 s1 (by linarith)) (stp_lb5 s2 hlo4)
  rcases lt_or_le s2 70 with hb | hlo6
  · exact le_trans (stp_ub6 s1 (by linarith)) (stp_lb6 s2 hlo5)
  rcases lt_or_le s2 80 with hb | hlo7
  · exact le_trans (stp_ub7 s1 (by linarith)) (stp_lb7 s2 hlo6)
  rcases lt_or_le s2 90 with hb | hlo8
  · exact le_trans (stp_ub8 s1 (by linarith)) (stp_lb8 s2 hlo7)
  exact le_trans (stp_ub9 s1) (stp_lb9 s2 hlo8)

lemma decay_in_range (age : Int) (c : ℚ) (hc0 : 0 ≤ c) (hc1 : c ≤ 0.95) :
    1/2 ≤ applyConfidenceDecay age c ∧ applyConfidenceDecay age c ≤ 0.95 := by
  unfold applyConfidenceDecay
  refine ⟨le_trans (by norm_num) (le_max_left _ _), max_le (by norm_num) ?_⟩
  split_ifs <;> linarith

lemma severity_base_eq (prof : DistrictProfile) (alerts : List Alert) (vpow : ℚ → ℚ)
    (day : List Period) (e : ℚ) (td : TimingDetails) (acc ts : ℚ) (ref : ℚ) (hr : Bool)
    (road drift mc : ℚ) (sev : Severity)
    (h1 : analyzeEarlyMorningTiming prof day = .ok (e, td))
    (h2 : analyzeTotalAccumulation prof day = (acc, ts))
    (h3 : analyzeRefreezeRisk day = .ok (ref, hr))
    (h4 : analyzeRoadConditions day = .ok road)
    (h5 : analyzeDriftingRisk day = .ok drift)
    (h6 : computeMinBusChill vpow day = .ok mc)
    (h7 : calculateSeverityScore prof alerts vpow day = .ok sev) :
    sev.base_score = e + acc + ref + analyzeHazardousPrecip day + road + drift +
      windchillDangerScore mc + analyzeExtremeColdDay day mc := by
  unfold calculateSeverityScore at h7
  rw [h1, h2, h3, h4, h5, h6] at h7
  simp only [bindOk] at h7
  cases h8 : analyzeAlerts alerts day with
  | error err =>
    rw [h8] at h7
    simp only [bindErr] at h7
    exact Except.noConfusion h7
  | ok ac =>
    obtain ⟨at2, as2⟩ := ac
    rw [h8] at h7
    simp only [bindOk] at h7
    cases h7
    rfl

lemma taggedPeriods_error (ps : List Period) (hbad : ∃ p ∈ ps, p.startTime = none) :
    taggedPeriods ps = .error () := by
  induction ps with
  | nil => obtain ⟨p, hmem, _⟩ := hbad; exact absurd hmem (List.not_mem_nil p)
  | cons q rest ih =>
    obtain ⟨p, hmem, hnone⟩ := hbad
    rcases List.mem_cons.mp hmem with heq | hmem2
    · subst heq
      unfold taggedPeriods
      rw [hnone]
    · unfold taggedPeriods
      cases hq : q.startTime with
      | none => rfl
      | some dt =>
        rw [ih ⟨p, hmem2, hnone⟩]
        rfl

lemma dayDates_pairwise (tagged : List (Period × Int)) :
    (dayDates tagged).Pairwise (· < ·) := by
  unfold dayDates
  have hs : (List.insertionSort (· ≤ ·) (tagged.map Prod.snd).dedup).Sorted (· ≤ ·) :=
    List.sorted_insertionSort _ _
  have hn : (List.insertionSort (· ≤ ·) (tagged.map Prod.snd).dedup).Nodup :=
    ((List.perm_insertionSort (· ≤ ·) (tagged.map Prod.snd).dedup).nodup_iff).mpr
      (List.nodup_dedup _)
  exact (hs.and hn).imp fun h => lt_of_le_of_ne h.1 h.2

lemma dayLoop_spec (prof : DistrictProfile) (alerts : List Alert) (vpow : ℚ → ℚ)
    (now : DT) (today : Int) (tagged : List (Period × Int)) :
    ∀ (dates : List Int) (counted : Nat) (out : List ForecastResult),
      counted ≤ 3 →
      dayLoop prof alerts vpow now today tagged dates counted = .ok out →
      ((out.map ForecastResult.date).Sublist dates ∧
        (∀ r ∈ out, today < r.date ∧ weekdayNum r.date < 5) ∧
        out.length + counted ≤ 4) := by
  intro dates
  induction dates with
  | nil =>
    intro counted out hc h
    unfold dayLoop at h
    cases h
    refine ⟨List.nil_sublist _, by simp, by simp; omega⟩
  | cons d rest ih =>
    intro counted out hc h
    unfold dayLoop at h
    by_cases hskip : d ≤ today ∨ 5 ≤ weekdayNum d
    · rw [if_pos hskip] at h
      obtain ⟨hsub, hmem, hlen⟩ := ih counted out hc h
      exact ⟨hsub.trans (List.sublist_cons_self d rest), hmem, hlen⟩
    · rw [if_neg hskip] at h
      push_neg at hskip
      obtain ⟨hd1, hd2⟩ := hskip
      cases hsev : calculateSeverityScore prof alerts vpow (dayHoursFor tagged d) with
      | error err =>
        rw [hsev] at h
        simp only [bindErr] at h
        exact Except.noConfusion h
      | ok severity =>
        rw [hsev] at h
        simp only [bindOk] at h
        cases hage : getForecastAge (dayHoursFor tagged d) now with
        | error err =>
          rw [hage] at h
          simp only [bindErr] at h
          exact Except.noConfusion h
        | ok age =>
          rw [hage] at h
          simp only [bindOk] at h
          by_cases hcnt : 4 ≤ counted + 1
          · rw [if_pos hcnt] at h
            cases h
            refine ⟨?_, ?_, ?_⟩
            · simpa using (List.nil_sublist rest).cons₂ d
            · intro r hr
              rcases List.mem_singleton.mp hr with rfl
              exact ⟨hd1, hd2⟩
            · simp
              omega
          · rw [if_neg hcnt] at h
            cases htail : dayLoop prof alerts vpow now today tagged rest (counted + 1) with
            | error err =>
              rw [htail] at h
              simp only [bindErr] at h
              exact Except.noConfusion h
            | ok tail =>
              rw [htail] at h
              simp only [bindOk] at h
              cases h
              obtain ⟨hsub, hmem, hlen⟩ := ih (counted + 1) tail (by omega) htail
              refine ⟨hsub.cons₂ d, ?_, ?_⟩
              · intro r hr
                rcases List.mem_cons.mp hr with rfl | hr2
                · exact ⟨hd1, hd2⟩
                · exact hmem r hr2
              · simp only [List.length_cons]
                omega

-- Evaluations of the embedded engine on the concrete inputs.

lemma c4day_accum : analyzeTotalAccumulation averageProfile c4day = (40, 5) := by
  norm_num +decide [analyzeEarlyMorningTiming, earlyMorningLoop, countContinuousSnowHours, countSnowHoursLoop, analyzeTotalAccumulation, isSnowPeriod, extractPrecipitationData, qpfToSnowDepth, averageProfile, snowKeywords, strContains, strLower, isPrefixOfList, lowerChar, bindOk, c4day, snowP]

lemma c4day_early : analyzeEarlyMorningTiming averageProfile c4day =
    .ok (77, { critical_window_snow_depth := 5, peak_probability := 0,
               continuous_hours := 1 }) := by
  norm_num +decide [analyzeEarlyMorningTiming, earlyMorningLoop, countContinuousSnowHours, countSnowHoursLoop, analyzeTotalAccumulation, isSnowPeriod, extractPrecipitationData, qpfToSnowDepth, averageProfile, snowKeywords, strContains, strLower, isPrefixOfList, lowerChar, bindOk, c4day, snowP,
    pythonRound_int 1 5 50 (by norm_num)]

lemma c6day2_count : countContinuousSnowHours c6day2 5 9 = .ok 2 := by
  norm_num +decide [countContinuousSnowHours, countSnowHoursLoop, c6day2, snowP,
    isSnowPeriod, extractPrecipitationData, snowKeywords, strContains, strLower,
    isPrefixOfList, lowerChar]

lemma c6day2_early : analyzeEarlyMorningTiming averageProfile c6day2 =
    .ok ((35 + 35) * averageProfile.timing_weight,
      { critical_window_snow_depth := 10, peak_probability := 0,
         continuous_hours := 2 }) := by
  norm_num +decide [analyzeEarlyMorningTiming, earlyMorningLoop, countContinuousSnowHours, countSnowHoursLoop, analyzeTotalAccumulation, isSnowPeriod, extractPrecipitationData, qpfToSnowDepth, averageProfile, snowKeywords, strContains, strLower, isPrefixOfList, lowerChar, bindOk, c6day2, snowP,
    pythonRound_int 1 10 100 (by norm_num)]

lemma c6day3_loop : earlyMorningLoop c6day3 (0, 0, 0) = .ok (105, 15, 0) := by
  norm_num +decide [earlyMorningLoop, c6day3, snowP, isSnowPeriod,
    extractPrecipitationData, qpfToSnowDepth, snowKeywords, strContains, strLower,
    isPrefixOfList, lowerChar]

lemma c6day3_count : countContinuousSnowHours c6day3 5 9 = .ok 3 := by
  norm_num +decide [countContinuousSnowHours, countSnowHoursLoop, c6day3, snowP,
    isSnowPeriod, extractPrecipitationData, snowKeywords, strContains, strLower,
    isPrefixOfList, lowerChar]

lemma c2day_early : analyzeEarlyMorningTiming averageProfile c2day =
    .ok (77, { critical_window_snow_depth := 15/2, peak_probability := 0,
               continuous_hours := 1 }) := by
  norm_num +decide [analyzeEarlyMorningTiming, earlyMorningLoop, countContinuousSnowHours, countSnowHoursLoop, analyzeTotalAccumulation, isSnowPeriod, extractPrecipitationData, qpfToSnowDepth, averageProfile, snowKeywords, strContains, strLower, isPrefixOfList, lowerChar, bindOk, c2day, c2p,
    pythonRound_int 1 (15/2) 75 (by norm_num)]

lemma c2day_accum : analyzeTotalAccumulation averageProfile c2day = (45, 15/2) := by
  norm_num +decide [analyzeEarlyMorningTiming, earlyMorningLoop, countContinuousSnowHours, countSnowHoursLoop, analyzeTotalAccumulation, isSnowPeriod, extractPrecipitationData, qpfToSnowDepth, averageProfile, snowKeywords, strContains, strLower, isPrefixOfList, lowerChar, bindOk, c2day, c2p]

lemma c2day_refreeze : analyzeRefreezeRisk c2day = .ok (0, false) := by
  norm_num +decide [analyzeRefreezeRisk, lastSnowHourLoop, tempsAfterLoop, c2day, c2p,
    isSnowPeriod, extractPrecipitationData, snowKeywords, strContains, strLower,
    isPrefixOfList, lowerChar, bindOk]

lemma c2day_road : analyzeRoadConditions c2day = .ok 22 := by
  norm_num +decide [analyzeRoadConditions, roadGatherLoop, extractVisibility, pyMin,
    c2day, c2p, isSnowPeriod, snowKeywords, strContains, strLower, isPrefixOfList,
    lowerChar, bindOk]

lemma c2day_drift : analyzeDriftingRisk c2day = .ok 0 := by
  norm_num +decide [analyzeDriftingRisk, driftingSnowLoop, driftingWindLoop,
    extractWindSpeed, c2day, c2p, isSnowPeriod, extractPrecipitationData, snowKeywords,
    strContains, strLower, isPrefixOfList, lowerChar, bindOk]

lemma c2day_chill : computeMinBusChill vp0 c2day = .ok (-10) := by
  norm_num +decide [computeMinBusChill, busChillLoop, extractWindChill,
    extractWindSpeed, getTemperatureFahrenheit, pyMin, vp0, c2day, c2p, bindOk]

lemma c2day_sev : calculateSeverityScore averageProfile [] vp0 c2day = .ok c2sev := by
  norm_num +decide [calculateSeverityScore, analyzeEarlyMorningTiming, earlyMorningLoop, countContinuousSnowHours, countSnowHoursLoop, analyzeTotalAccumulation, analyzeRefreezeRisk, lastSnowHourLoop, tempsAfterLoop, analyzeHazardousPrecip, analyzeRoadConditions, roadGatherLoop, analyzeDriftingRisk, driftingSnowLoop, driftingWindLoop, computeMinBusChill, busChillLoop, analyzeExtremeColdDay, windchillDangerScore, analyzeAlerts, alertLoop, alertStep, extractWindChill, extractWindSpeed, extractVisibility, getTemperatureFahrenheit, pyMin, vp0, isSnowPeriod, extractPrecipitationData, qpfToSnowDepth, averageProfile, snowKeywords, strContains, strLower, isPrefixOfList, lowerChar, bindOk, c2day, c2p, c2sev,
    pythonRound_int 1 77 770 (by norm_num), pythonRound_int 1 45 450 (by norm_num),
    pythonRound_int 1 (15/2) 75 (by norm_num), pythonRound_int 1 0 0 (by norm_num),
    pythonRound_int 1 12 120 (by norm_num), pythonRound_int 1 22 220 (by norm_num),
    pythonRound_int 0 (-10) (-10) (by norm_num)]

lemma wCalc_pipeline : calculateNextWeekdayProbabilities wCalc vp0 = .ok (true, wOut) := by
  norm_num +decide [calculateNextWeekdayProbabilities, taggedPeriods, dayDates, dayLoop,
    dayHoursFor, weekdayNum, weekdayName, likelihoodLabel, severityToProbability,
    applyConfidenceDecay, getForecastAge, pyTrunc, DT.toSec,
    calculateSeverityScore, analyzeEarlyMorningTiming, earlyMorningLoop, countContinuousSnowHours, countSnowHoursLoop, analyzeTotalAccumulation, analyzeRefreezeRisk, lastSnowHourLoop, tempsAfterLoop, analyzeHazardousPrecip, analyzeRoadConditions, roadGatherLoop, analyzeDriftingRisk, driftingSnowLoop, driftingWindLoop, computeMinBusChill, busChillLoop, analyzeExtremeColdDay, windchillDangerScore, analyzeAlerts, alertLoop, alertStep, extractWindChill, extractWindSpeed, extractVisibility, getTemperatureFahrenheit, pyMin, vp0, isSnowPeriod, extractPrecipitationData, qpfToSnowDepth, averageProfile, snowKeywords, strContains, strLower, isPrefixOfList, lowerChar, bindOk, wCalc, wPeriod, wSev, wOut,
    List.insertionSort, List.orderedInsert,
    pythonRound_int 1 0 0 (by norm_num), pythonRound_int 0 32 32 (by norm_num),
    pythonRound_int 2 (19/20) 95 (by norm_num)]

-- -------------------------
-- Claims
-- -------------------------

/-- C1 (counterexample): the claim that every alert label acts as a
probability floor fails: at severity score 50 a Winter Weather Advisory
returns probability 45 while the same score with no alert returns 55. -/
theorem alert_floor_fails_at_50_advisory :
    ¬ ((severityToProbability 50 (some "Winter Weather Advisory")).1 ≥
        (severityToProbability 50 none).1) := by
  rw [stp_advisory]
  have h : (severityToProbability 50 none).1 = 55 := by
    rw [stp_none_fst]
    norm_num
  rw [h]
  decide

/-- C1 (amended): each alert label acts as a probability floor only up to
a label-dependent severity cutoff: Winter Weather Advisory for scores
below 50, Winter Storm Warning below 70, Ice Storm Warning below 80, and
Blizzard Warning below 90; above the cutoff the no-alert bucket
probability exceeds the alert's fixed probability. -/
theorem alert_floor_below_cutoffs (s : ℚ) :
    (s < 50 → (severityToProbability s none).1 ≤
      (severityToProbability s (some "Winter Weather Advisory")).1) ∧
    (s < 70 → (severityToProbability s none).1 ≤
      (severityToProbability s (some "Winter Storm Warning")).1) ∧
    (s < 80 → (severityToProbability s none).1 ≤
      (severityToProbability s (some "Ice Storm Warning")).1) ∧
    (s < 90 → (severityToProbability s none).1 ≤
      (severityToProbability s (some "Blizzard Warning")).1) := by
  refine ⟨fun h => ?_, fun h => ?_, fun h => ?_, fun h => ?_⟩
  · rw [stp_advisory]; exact le_trans (stp_ub4 s h) (by decide)
  · rw [stp_wsw]; exact le_trans (stp_ub6 s h) (by decide)
  · rw [stp_ice]; exact le_trans (stp_ub7 s h) (by decide)
  · rw [stp_blizzard]; exact le_trans (stp_ub8 s h) (by decide)

/-- C1 (witness): the amended floor property instantiated at score 0 for
the advisory label. -/
theorem alert_floor_below_cutoffs_witness :
    (severityToProbability 0 none).1 ≤
      (severityToProbability 0 (some "Winter Weather Advisory")).1 :=
  (alert_floor_below_cutoffs 0).1 (by norm_num)

/-- C2 (counterexample): on a day where the snow-related accumulation
factor (45) and the cold-related windchill danger factor (12) are both
positive, the base severity score equals the plain sum of the eight
per-factor scores (156) and does not strictly exceed it: there is no
compounding boost. -/
theorem base_score_no_compounding_cex :
    (analyzeTotalAccumulation averageProfile c2day).1 = 45 ∧
    computeMinBusChill vp0 c2day = .ok (-10) ∧
    windchillDangerScore (-10) = 12 ∧
    calculateSeverityScore averageProfile [] vp0 c2day = .ok c2sev ∧
    c2sev.base_score = 77 + 45 + 0 + 0 + 22 + 0 + 12 + 0 ∧
    ¬ (c2sev.base_score > 77 + 45 + 0 + 0 + 22 + 0 + 12 + 0) := by
  refine ⟨by rw [c2day_accum], c2day_chill, by norm_num [windchillDangerScore],
    c2day_sev, by norm_num [c2sev], by norm_num [c2sev]⟩

/-- C2 (amended): the severity aggregator applies no compounding rule:
the base severity score is exactly the plain sum of the eight per-factor
scores, for every day, including days on which both a snow-related and a
cold-related factor are positive. -/
theorem base_score_is_plain_sum (prof : DistrictProfile) (alerts : List Alert)
    (vpow : ℚ → ℚ) (day : List Period) (e : ℚ) (td : TimingDetails) (acc ts : ℚ)
    (ref : ℚ) (hr : Bool) (road drift mc : ℚ) (sev : Severity)
    (h1 : analyzeEarlyMorningTiming prof day = .ok (e, td))
    (h2 : analyzeTotalAccumulation prof day = (acc, ts))
    (h3 : analyzeRefreezeRisk day = .ok (ref, hr))
    (h4 : analyzeRoadConditions day = .ok road)
    (h5 : analyzeDriftingRisk day = .ok drift)
    (h6 : computeMinBusChill vpow day = .ok mc)
    (h7 : calculateSeverityScore prof alerts vpow day = .ok sev) :
    sev.base_score = e + acc + ref + analyzeHazardousPrecip day + road + drift +
      windchillDangerScore mc + analyzeExtremeColdDay day mc :=
  severity_base_eq prof alerts vpow day e td acc ts ref hr road drift mc sev
    h1 h2 h3 h4 h5 h6 h7

/-- C2 (witness): the plain-sum identity instantiated on the concrete
snow-plus-cold day. -/
theorem base_score_is_plain_sum_witness :
    c2sev.base_score = 77 + 45 + 0 + analyzeHazardousPrecip c2day + 22 + 0 +
      windchillDangerScore (-10) + analyzeExtremeColdDay c2day (-10) :=
  base_score_is_plain_sum averageProfile [] vp0 c2day 77
    { critical_window_snow_depth := 15/2, peak_probability := 0, continuous_hours := 1 }
    45 (15/2) 0 false 22 0 (-10) c2sev
    c2day_early c2day_accum c2day_refreeze c2day_road c2day_drift c2day_chill c2day_sev

/-- C3 (counterexample): a forecast in which one period among well-formed
periods has an unparseable startTime makes the whole pipeline raise: the
scoring does not skip the period and complete normally. -/
theorem bad_timestamp_aborts_pipeline_cex :
    calculateNextWeekdayProbabilities c3calc vp0 = .error () := rfl

/-- C3 (amended): a single unparseable startTime in a nonempty forecast
aborts the whole pipeline at the grouping pass: the exception propagates
out of calculate_next_weekday_probabilities instead of the period being
skipped. -/
theorem bad_timestamp_aborts_pipeline (c : Calc) (vpow : ℚ → ℚ)
    (hne : c.hourlyForecast ≠ [])
    (hbad : ∃ p ∈ c.hourlyForecast, p.startTime = none) :
    calculateNextWeekdayProbabilities c vpow = .error () := by
  unfold calculateNextWeekdayProbabilities
  rw [if_neg hne, taggedPeriods_error c.hourlyForecast hbad]
  rfl

/-- C3 (witness): the abort behaviour instantiated on a forecast holding
a single unparseable period. -/
theorem bad_timestamp_aborts_pipeline_witness :
    calculateNextWeekdayProbabilities c3calc2 vp0 = .error () :=
  bad_timestamp_aborts_pipeline c3calc2 vp0 (by decide) (by decide)

/-- C4 (counterexample): at exactly 25 °F the code takes the strict
`> 20` bracket with ratio 10.0, so the snow depth for 0.5 in QPF is 5.0
inches, not the claimed 0.5 × 9.5 = 4.75 of the 25-30 °F bracket. -/
theorem qpf_depth_at_25F_cex :
    qpfToSnowDepth 0.5 25 = 5 ∧ qpfToSnowDepth 0.5 25 ≠ 0.5 * 9.5 := by
  constructor <;> norm_num [qpfToSnowDepth]

/-- C4 (amended): for one snow period with QPF 0.5 in at 25 °F in the
peak commute window and nothing else, the total-accumulation score and
the early-morning timing score are both strictly positive, and the snow
depth is 0.5 × 10.0 = 5.0 inches (25 °F falls in the strict `> 20`
bracket of the ratio table, not the `> 25` bracket). -/
theorem commute_scenario_scores :
    0 < (analyzeTotalAccumulation averageProfile c4day).1 ∧
    analyzeEarlyMorningTiming averageProfile c4day =
      .ok (77, { critical_window_snow_depth := 5, peak_probability := 0,
                 continuous_hours := 1 }) ∧
    (0 : ℚ) < 77 ∧
    qpfToSnowDepth 0.5 25 = 0.5 * 10 := by
  refine ⟨?_, c4day_early, by norm_num, by norm_num [qpfToSnowDepth]⟩
  rw [c4day_accum]
  norm_num

/-- C5 (counterexample): for a forecast 73 hours out, the confidence is
multiplied only by the 0.80 factor (0.95 becomes 0.76), not by both
derating factors (which would give 0.95 × 0.90 × 0.80 = 0.684): the
if/elif chain does not stack the two deratings. -/
theorem confidence_decay_not_stacking_cex :
    applyConfidenceDecay 73 0.95 = 0.76 ∧
      applyConfidenceDecay 73 0.95 ≠ 0.95 * 0.90 * 0.80 := by
  constructor <;> norm_num [applyConfidenceDecay]

/-- C5 (amended): confidence decay applies exactly one derating factor:
0.80 when the forecast age exceeds 72 hours, otherwise 0.90 when it
exceeds 48 hours, otherwise none; the result is then clamped to the 0.5
floor.  The deratings never stack. -/
theorem confidence_decay_single_factor (age : Int) (c : ℚ) :
    (72 < age → applyConfidenceDecay age c = max 0.5 (c * 0.80)) ∧
    (48 < age → age ≤ 72 → applyConfidenceDecay age c = max 0.5 (c * 0.90)) ∧
    (age ≤ 48 → applyConfidenceDecay age c = max 0.5 c) := by
  unfold applyConfidenceDecay
  refine ⟨fun h1 => ?_, fun h1 h2 => ?_, fun h1 => ?_⟩
  · rw [if_pos (by omega : age > 72)]
  · rw [if_neg (by omega : ¬ age > 72), if_pos (by omega : age > 48)]
  · rw [if_neg (by omega : ¬ age > 72), if_neg (by omega : ¬ age > 48)]

/-- C5 (witness): the single-factor decay at age 100 hours with base
confidence 0.9. -/
theorem confidence_decay_single_factor_witness :
    applyConfidenceDecay 100 0.9 = max 0.5 (0.9 * 0.80) :=
  (confidence_decay_single_factor 100 0.9).1 (by norm_num)

/-- C6 (counterexample): on a day with exactly two consecutive snow hours
inside the peak window the early-morning score is (35 + 35) times the
timing weight, with no continuity bonus: the bonus requires three or more
consecutive hours, not two. -/
theorem no_bonus_at_two_consecutive_hours :
    countContinuousSnowHours c6day2 5 9 = .ok 2 ∧
    analyzeEarlyMorningTiming averageProfile c6day2 =
      .ok ((35 + 35) * averageProfile.timing_weight,
        { critical_window_snow_depth := 10, peak_probability := 0,
          continuous_hours := 2 }) ∧
    (35 + 35 : ℚ) * averageProfile.timing_weight ≠
      (35 + 35 + 15) * averageProfile.timing_weight :=
  ⟨c6day2_count, c6day2_early, by norm_num [averageProfile]⟩

/-- C6 (amended): the continuity bonus of 15 points is added exactly when
snow is detected in 3 or more consecutive hours inside the peak window;
with fewer consecutive hours the loop score is scaled by the timing
weight without the bonus. -/
theorem continuity_bonus_requires_three_hours (prof : DistrictProfile)
    (day : List Period) (raw crit peak : ℚ) (cont : Nat)
    (h1 : earlyMorningLoop day (0, 0, 0) = .ok (raw, crit, peak))
    (h2 : countContinuousSnowHours day 5 9 = .ok cont) :
    (3 ≤ cont → analyzeEarlyMorningTiming prof day =
      .ok ((raw + 15) * prof.timing_weight,
        { critical_window_snow_depth := pythonRound 1 crit, peak_probability := peak,
          continuous_hours := cont })) ∧
    (cont < 3 → analyzeEarlyMorningTiming prof day =
      .ok (raw * prof.timing_weight,
        { critical_window_snow_depth := pythonRound 1 crit, peak_probability := peak,
          continuous_hours := cont })) := by
  unfold analyzeEarlyMorningTiming
  rw [h1, h2]
  simp only [bindOk]
  constructor
  · intro h3
    rw [if_pos (by omega : cont ≥ 3)]
  · intro h3
    rw [if_neg (by omega : ¬ cont ≥ 3)]

/-- C6 (witness): with exactly three consecutive snow hours the bonus is
included. -/
theorem continuity_bonus_requires_three_hours_witness :
    analyzeEarlyMorningTiming averageProfile c6day3 =
      .ok ((105 + 15) * averageProfile.timing_weight,
        { critical_window_snow_depth := pythonRound 1 15, peak_probability := 0,
          continuous_hours := 3 }) :=
  (continuity_bonus_requires_three_hours averageProfile c6day3 105 15 0 3
    c6day3_loop c6day3_count).1 (by norm_num)

/-- C7: the severity-to-probability mapping is monotonically
non-decreasing in the score for any fixed alert label (forecast age does
not enter the probability at all). -/
theorem severity_to_probability_monotone (s1 s2 : ℚ) (L : Option String)
    (h : s1 < s2) :
    (severityToProbability s1 L).1 ≤ (severityToProbability s2 L).1 := by
  by_cases h1 : L = some "Blizzard Warning"
  · subst h1; rw [stp_blizzard, stp_blizzard]
  by_cases h2 : L = some "Ice Storm Warning"
  · subst h2; rw [stp_ice, stp_ice]
  by_cases h3 : L = some "Winter Storm Warning"
  · subst h3; rw [stp_wsw, stp_wsw]
  by_cases h4 : L = some "Winter Weather Advisory"
  · subst h4; rw [stp_advisory, stp_advisory]
  rw [stp_other s1 L h1 h2 h3 h4, stp_other s2 L h1 h2 h3 h4]
  exact stp_none_mono s1 s2 h

/-- C7 (witness): monotonicity instantiated at scores 5 and 100 with no
alert label. -/
theorem severity_to_probability_monotone_witness :
    (severityToProbability 5 none).1 ≤ (severityToProbability 100 none).1 :=
  severity_to_probability_monotone 5 100 none (by norm_num)

/-- C8: for every severity score (including negative and arbitrarily
large ones), every alert label, and every forecast age, the returned
probability lies in [0, 99] and the confidence after forecast-age decay
lies in [0.5, 0.95]. -/
theorem probability_confidence_clamped (s : ℚ) (L : Option String) (age : Int) :
    0 ≤ (severityToProbability s L).1 ∧ (severityToProbability s L).1 ≤ 99 ∧
      1/2 ≤ applyConfidenceDecay age (severityToProbability s L).2 ∧
      applyConfidenceDecay age (severityToProbability s L).2 ≤ 0.95 := by
  have hp : 0 ≤ (severityToProbability s L).1 ∧ (severityToProbability s L).1 ≤ 99 ∧
      0 ≤ (severityToProbability s L).2 ∧ (severityToProbability s L).2 ≤ 0.95 := by
    by_cases h1 : L = some "Blizzard Warning"
    · subst h1; rw [stp_blizzard]
      refine ⟨by decide, by decide, by norm_num, by norm_num⟩
    by_cases h2 : L = some "Ice Storm Warning"
    · subst h2; rw [stp_ice]
      refine ⟨by decide, by decide, by norm_num, by norm_num⟩
    by_cases h3 : L = some "Winter Storm Warning"
    · subst h3; rw [stp_wsw]
      refine ⟨by decide, by decide, by norm_num, by norm_num⟩
    by_cases h4 : L = some "Winter Weather Advisory"
    · subst h4; rw [stp_advisory]
      refine ⟨by decide, by decide, by norm_num, by norm_num⟩
    rw [stp_other s L h1 h2 h3 h4]
    refine ⟨?_, ?_, ?_, ?_⟩
    · rw [stp_none_fst]; split_ifs <;> decide
    · rw [stp_none_fst]; split_ifs <;> decide
    · rw [stp_none_snd]; split_ifs <;> norm_num
    · rw [stp_none_snd]; split_ifs <;> norm_num
  obtain ⟨p0, p1, q0, q1⟩ := hp
  obtain ⟨d0, d1⟩ := decay_in_range age _ q0 q1
  exact ⟨p0, p1, d0, d1⟩

/-- C9: the forecast pipeline returns at most 4 results, in strictly
ascending date order, and every returned date is strictly after today
and falls on a weekday (Mon-Fri). -/
theorem forecast_weekday_bounds (c : Calc) (vpow : ℚ → ℚ) (success : Bool)
    (out : List ForecastResult)
    (h : calculateNextWeekdayProbabilities c vpow = .ok (success, out)) :
    out.length ≤ 4 ∧ List.Chain' (fun a b => a.date < b.date) out ∧
      ∀ r ∈ out, c.today < r.date ∧ weekdayNum r.date < 5 := by
  unfold calculateNextWeekdayProbabilities at h
  by_cases hemp : c.hourlyForecast = []
  · rw [if_pos hemp] at h
    injection h with h1
    injection h1 with hsucc hout
    subst hout
    exact ⟨by simp, by simp, by simp⟩
  · rw [if_neg hemp] at h
    cases htag : taggedPeriods c.hourlyForecast with
    | error err =>
      rw [htag] at h
      simp only [bindErr] at h
      exact Except.noConfusion h
    | ok tagged =>
      rw [htag] at h
      simp only [bindOk] at h
      cases hloop : dayLoop c.profile c.alerts vpow c.now c.today tagged
          (dayDates tagged) 0 with
      | error err =>
        rw [hloop] at h
        simp only [bindErr] at h
        exact Except.noConfusion h
      | ok results =>
        rw [hloop] at h
        simp only [bindOk] at h
        injection h with h1
        injection h1 with hsucc hout
        subst hout
        obtain ⟨hsub, hmem, hlen⟩ :=
          dayLoop_spec c.profile c.alerts vpow c.now c.today tagged (dayDates tagged) 0
            results (by omega) hloop
        refine ⟨by omega, ?_, hmem⟩
        have hp : (results.map ForecastResult.date).Pairwise (· < ·) :=
          (dayDates_pairwise tagged).sublist hsub
        exact (List.chain'_map ForecastResult.date).mp hp.chain'

/-- C9 (witness): the bounds instantiated on a concrete one-day forecast
that the pipeline scores successfully. -/
theorem forecast_weekday_bounds_witness :
    calculateNextWeekdayProbabilities wCalc vp0 = .ok (true, wOut) ∧
    wOut.length ≤ 4 ∧ List.Chain' (fun a b => a.date < b.date) wOut ∧
    ∀ r ∈ wOut, wCalc.today < r.date ∧ weekdayNum r.date < 5 :=
  ⟨wCalc_pipeline, forecast_weekday_bounds wCalc vp0 true wOut wCalc_pipeline⟩

/-- C10: whenever any snow/ice period is present, analyze_extreme_cold_day
returns exactly 0 no matter how low the minimum bus-hour wind chill is,
while the separate windchill danger component is always part of the base
score sum (with the extreme-cold term contributing 0). -/
theorem extreme_cold_zero_with_snow (day : List Period) (mc : ℚ)
    (hsnow : day.any isSnowPeriod = true) :
    analyzeExtremeColdDay day mc = 0 ∧
    ∀ (prof : DistrictProfile) (alerts : List Alert) (vpow : ℚ → ℚ) (e : ℚ)
      (td : TimingDetails) (acc ts ref : ℚ) (hr : Bool) (road drift mc2 : ℚ)
      (sev : Severity),
      analyzeEarlyMorningTiming prof day = .ok (e, td) →
      analyzeTotalAccumulation prof day = (acc, ts) →
      analyzeRefreezeRisk day = .ok (ref, hr) →
      analyzeRoadConditions day = .ok road →
      analyzeDriftingRisk day = .ok drift →
      computeMinBusChill vpow day = .ok mc2 →
      calculateSeverityScore prof alerts vpow day = .ok sev →
      sev.base_score = e + acc + ref + analyzeHazardousPrecip day + road + drift +
        windchillDangerScore mc2 + 0 := by
  have hz : ∀ m : ℚ, analyzeExtremeColdDay day m = 0 := by
    intro m
    simp only [analyzeExtremeColdDay, hsnow]
    norm_num
  refine ⟨hz mc, ?_⟩
  intro prof alerts vpow e td acc ts ref hr road drift mc2 sev h1 h2 h3 h4 h5 h6 h7
  have hb := severity_base_eq prof alerts vpow day e td acc ts ref hr road drift mc2 sev
    h1 h2 h3 h4 h5 h6 h7
  rw [hb, hz mc2]

/-- C10 (witness): the cold-alone pathway disabled at wind chill -100 on
the concrete snow day, with the windchill danger term still in the sum. -/
theorem extreme_cold_zero_with_snow_witness :
    analyzeExtremeColdDay c2day (-100) = 0 ∧
    c2sev.base_score = 77 + 45 + 0 + analyzeHazardousPrecip c2day + 22 + 0 +
      windchillDangerScore (-10) + 0 :=
  ⟨(extreme_cold_zero_with_snow c2day (-100) (by decide)).1,
    (extreme_cold_zero_with_snow c2day (-100) (by decide)).2 averageProfile [] vp0 77
      { critical_window_snow_depth := 15/2, peak_probability := 0, continuous_hours := 1 }
      45 (15/2) 0 false 22 0 (-10) c2sev
      c2day_early c2day_accum c2day_refreeze c2day_road c2day_drift c2day_chill c2day_sev⟩

end SnowDay
